import Mathlib

/-!
Verification of the data ingestion and normalization layer of the
polar-plant EC dashboard (function load_data in main.py).

The embedding models the filesystem as a list of directory entries, each a
name together with its parsed content: a CSV file is a header row plus raw
text cells, an XLSX workbook is a list of named sheets whose cells already
carry native types.  Unicode NFC normalization is modelled by the standard
Hangul jamo composition algorithm (the only canonical composition relevant
to the Korean filenames this program matches); all other code points pass
through unchanged.  Pandas numeric inference is modelled per column: a
column is numeric when every non-empty raw cell parses as an integer
literal, otherwise its cells are kept as raw strings.  Timestamp parsing
(pandas to_datetime with errors coerce) is modelled as recognition of
ISO YYYY-MM-DD dates; a cell that fails to parse becomes Cell.invalid
(the NaT marker), and a numeric cell is taken as an epoch value.
-/

/-- Does the character list start with the given needle (Python str startswith). -/
def strStartsWith : List Char → List Char → Bool
  | _, [] => true
  | [], _ :: _ => false
  | c :: cs, d :: ds => c == d && strStartsWith cs ds

/-- Is the needle a contiguous substring of the haystack (Python in operator). -/
def strContains : List Char → List Char → Bool
  | [], needle => needle.isEmpty
  | c :: t, needle => strStartsWith (c :: t) needle || strContains t needle

/-- Python substring containment s2 in s1. -/
def containsStr (hay needle : String) : Bool :=
  strContains hay.toList needle.toList

/-- Python str.endswith. -/
def endsWithStr (s suffix : String) : Bool :=
  strStartsWith s.toList.reverse suffix.toList.reverse

/-- Hangul canonical composition of two adjacent code points: a leading jamo
followed by a vowel jamo composes to an LV syllable, and an LV syllable
followed by a trailing jamo composes to an LVT syllable (UAX 15). -/
def composePair (c1 c2 : Char) : Option Char :=
  let a := c1.toNat
  let b := c2.toNat
  if 0x1100 ≤ a ∧ a ≤ 0x1112 ∧ 0x1161 ≤ b ∧ b ≤ 0x1175 then
    some (Char.ofNat (0xAC00 + ((a - 0x1100) * 21 + (b - 0x1161)) * 28))
  else if 0xAC00 ≤ a ∧ a ≤ 0xD7A3 ∧ (a - 0xAC00) % 28 = 0 ∧ 0x11A8 ≤ b ∧ b ≤ 0x11C2 then
    some (Char.ofNat (a + (b - 0x11A7)))
  else none

/-- One pass of canonical composition over a character list, carried out with
explicit fuel so that the kernel can evaluate it; fuel equal to the list
length always suffices because every step shortens the list. -/
def nfcChars : Nat → List Char → List Char
  | _, [] => []
  | 0, l => l
  | _ + 1, [c] => [c]
  | fuel + 1, c1 :: c2 :: rest =>
    match composePair c1 c2 with
    | some c => nfcChars fuel (c :: rest)
    | none => c1 :: nfcChars fuel (c2 :: rest)

/-- Model of unicodedata.normalize NFC restricted to Hangul composition;
non-Hangul code points pass through unchanged. -/
def nfc (s : String) : String :=
  String.mk (nfcChars s.toList.length s.toList)

/-- A tabular cell value: raw text, an integer, a timestamp or the NaN/NaT
invalid marker. -/
inductive Cell
  | str (s : String)
  | num (n : Int)
  | timestamp (t : Int)
  | invalid
deriving DecidableEq, Repr

/-- A delimited-text file: header row plus raw (unparsed) text cells. -/
structure CsvFile where
  header : List String
  rows : List (List String)
deriving DecidableEq, Repr

/-- One spreadsheet sheet: its name, header row and already-typed cells. -/
structure Sheet where
  name : String
  header : List String
  rows : List (List Cell)
deriving DecidableEq, Repr

/-- Parsed content of a directory entry; other covers files that are neither
a well-formed CSV nor a well-formed workbook (reading them raises). -/
inductive FileContent
  | csv (c : CsvFile)
  | xlsx (sheets : List Sheet)
  | other
deriving DecidableEq, Repr

/-- One entry of the data directory. -/
structure DirEntry where
  name : String
  content : FileContent
deriving DecidableEq, Repr

/-- One record of a canonical table: column name paired with cell value. -/
abbrev Row := List (String × Cell)

/-- Result of load_data: either a single fatal error message with no dataset,
or the pair of canonical tables.  The source returns (None, None, msg) in
the fatal case and (env_df, growth_df, None) on success; no other shape is
reachable and no warning channel exists in its return value. -/
inductive LoadResult
  | fatal (msg : String)
  | ok (env : List Row) (growth : List Row)
deriving DecidableEq, Repr

/-- The static school configuration of load_data: name and target EC
(the EC values 1.0, 2.0, 4.0, 8.0 are represented as integers; colors are
presentation data and omitted). -/
def school_config : List (String × Int) :=
  [("송도고", 1), ("하늘고", 2), ("아라고", 4), ("동산고", 8)]

/-- Python dict insertion: overwriting an existing key keeps its position. -/
def upsertFile : List (String × FileContent) → String → FileContent → List (String × FileContent)
  | [], k, v => [(k, v)]
  | (k0, v0) :: rest, k, v =>
    if k0 == k then (k0, v) :: rest else (k0, v0) :: upsertFile rest k v

/-- The files_map built by load_data: every entry name normalized to NFC and
inserted into a dict in enumeration order. -/
def files_map (entries : List DirEntry) : List (String × FileContent) :=
  entries.foldl (fun m e => upsertFile m (nfc e.name) e.content) []

/-- First entry of the files_map whose (normalized) name satisfies the rule;
models the for-loop with break. -/
def findFirstFile (p : String → Bool) : List (String × FileContent) → Option (String × FileContent)
  | [] => none
  | (k, v) :: rest => if p k then some (k, v) else findFirstFile p rest

/-- The environment-file matching rule for one school: school name and the
keyword 환경 both occur in the normalized filename, which ends in .csv. -/
def envRule (school fname : String) : Bool :=
  containsStr fname school && containsStr fname "환경" && endsWithStr fname ".csv"

/-- The growth-spreadsheet matching rule: the normalized filename contains
생육결과 and ends in .xlsx. -/
def growthRule (fname : String) : Bool :=
  containsStr fname "생육결과" && endsWithStr fname ".xlsx"

/-- Value of a digit character. -/
def digitVal (c : Char) : Nat := c.toNat - 48

/-- Natural number denoted by a digit list. -/
def digitsToNat (l : List Char) : Nat :=
  l.foldl (fun acc c => acc * 10 + digitVal c) 0

/-- Model of the numeric literals pandas type inference recognizes: an
optional minus sign followed by at least one digit. -/
def parseNum (s : String) : Option Int :=
  match s.toList with
  | [] => none
  | '-' :: rest =>
    if !rest.isEmpty && rest.all Char.isDigit then
      some (-(digitsToNat rest : Int))
    else none
  | l =>
    if l.all Char.isDigit then some ((digitsToNat l : Int)) else none

/-- Model of pandas to_datetime string recognition: an ISO YYYY-MM-DD date,
encoded as the integer ((year * 100 + month) * 100 + day). -/
def parseDate (s : String) : Option Int :=
  match s.toList with
  | [y1, y2, y3, y4, h1, m1, m2, h2, d1, d2] =>
    if h1 == '-' && h2 == '-' && [y1, y2, y3, y4, m1, m2, d1, d2].all Char.isDigit then
      let m := digitsToNat [m1, m2]
      let d := digitsToNat [d1, d2]
      if 1 ≤ m ∧ m ≤ 12 ∧ 1 ≤ d ∧ d ≤ 31 then
        some (((digitsToNat [y1, y2, y3, y4] * 100 + m) * 100 + d : Nat) : Int)
      else none
    else none
  | _ => none

/-- Is this raw cell acceptable in a numeric column (empty means NaN). -/
def isNumericEntry (s : String) : Bool :=
  s == "" || (parseNum s).isSome

/-- A raw text cell after pandas column typing: empty cells become NaN; in a
numeric column the literal is parsed; in an object column the text is kept. -/
def rawCell (isNumCol : Bool) (s : String) : Cell :=
  if s = "" then Cell.invalid
  else if isNumCol then
    match parseNum s with
    | some n => Cell.num n
    | none => Cell.str s
  else Cell.str s

/-- Model of pd.to_datetime with errors coerce applied to one cell: text is
parsed as a date or coerced to NaT; numbers are taken as epoch values; NaN
becomes NaT. -/
def timeCoerce : Cell → Cell
  | Cell.str s =>
    match parseDate s with
    | some t => Cell.timestamp t
    | none => Cell.invalid
  | Cell.num n => Cell.timestamp n
  | Cell.timestamp t => Cell.timestamp t
  | Cell.invalid => Cell.invalid

/-- Python str.strip followed by str.lower (ASCII case folding). -/
def trimLower (s : String) : String :=
  String.mk (((s.toList.dropWhile Char.isWhitespace).reverse.dropWhile
    Char.isWhitespace).reverse.map Char.toLower)

/-- First index of a column name in a header list. -/
def idxOf? : List String → String → Option Nat
  | [], _ => none
  | h :: t, k => if h == k then some 0 else (idxOf? t k).map (fun i => i + 1)

/-- Processing of one environment CSV by load_data: normalize the header
(strip and lower), run column type inference, coerce the time column when
present, and tag every row with the school and its target EC. -/
def processCsv (c : CsvFile) (school : String) (ec : Int) : List Row :=
  let hdr := c.header.map trimLower
  let ncols := c.header.length
  let numcol : Nat → Bool := fun j => c.rows.all (fun r => isNumericEntry (r.getD j ""))
  let ti : Option Nat := idxOf? hdr "time"
  c.rows.map (fun r =>
    (hdr.zip ((List.range ncols).map (fun j =>
      let cell := rawCell (numcol j) (r.getD j "")
      if ti = some j then timeCoerce cell else cell)))
    ++ [("school", Cell.str school), ("target_ec", Cell.num ec)])

/-- Rows of one matched growth sheet, headers kept verbatim, tagged with the
matched school and its target EC. -/
def tagRows (sh : Sheet) (school : String) (ec : Int) : List Row :=
  sh.rows.map (fun r =>
    sh.header.zip r ++ [("school", Cell.str school), ("target_ec", Cell.num ec)])

/-- The first configured school whose name occurs in the normalized sheet
name (Python next over school_config order). -/
def firstMatchedSchool (normName : String) : Option (String × Int) :=
  school_config.find? (fun sc => containsStr normName sc.1)

/-- Contribution of one sheet to the growth table: its tagged rows when some
school matches, nothing otherwise. -/
def contribSheet (sh : Sheet) : List Row :=
  match firstMatchedSchool (nfc sh.name) with
  | some (s, ec) => tagRows sh s ec
  | none => []

/-- The growth table built from all sheets in workbook order. -/
def processSheets (sheets : List Sheet) : List Row :=
  (sheets.map contribSheet).flatten

/-- Environment loading for one school: the first matching file is read; a
matching file that is not a well-formed CSV raises, which the source turns
into a fatal return; no matching file means the school is skipped. -/
def loadEnvFor (fm : List (String × FileContent)) (school : String) (ec : Int) :
    Except String (Option (List Row)) :=
  match findFirstFile (envRule school) fm with
  | none => Except.ok none
  | some (_, FileContent.csv c) => Except.ok (some (processCsv c school ec))
  | some (fname, _) => Except.error (fname ++ " 로딩 실패")

/-- The environment loop of load_data over the configured schools, collecting
one table per found school (a found empty CSV still counts as present). -/
def loadEnvList : List (String × Int) → List (String × FileContent) →
    Except String (List (List Row))
  | [], _ => Except.ok []
  | (s, ec) :: rest, fm =>
    match loadEnvFor fm s ec with
    | Except.error e => Except.error e
    | Except.ok none => loadEnvList rest fm
    | Except.ok (some rows) =>
      match loadEnvList rest fm with
      | Except.error e => Except.error e
      | Except.ok dfs => Except.ok (rows :: dfs)

/-- Growth loading of load_data: absence of the spreadsheet is fatal; a
matching file that is not a well-formed workbook raises, turned into the
fatal loading-failure message; otherwise every sheet is processed. -/
def loadGrowth (fm : List (String × FileContent)) : Except String (List Row) :=
  match findFirstFile growthRule fm with
  | none => Except.error "생육결과 엑셀 파일(생육결과...xlsx)을 찾을 수 없습니다."
  | some (_, FileContent.xlsx sheets) => Except.ok (processSheets sheets)
  | some (_, _) => Except.error "생육 데이터 로딩 실패"

/-- The load_data entry point: a missing directory is fatal; then the
environment loop (its fatal CSV failures propagate), then growth loading,
then the emptiness check on the collected environment tables, exactly in
the source order; on success the environment tables are concatenated in
configuration order. -/
def load_data (dir : Option (List DirEntry)) : LoadResult :=
  match dir with
  | none => LoadResult.fatal "데이터 폴더(data/)가 존재하지 않습니다."
  | some entries =>
    match loadEnvList school_config (files_map entries) with
    | Except.error e => LoadResult.fatal e
    | Except.ok dfs =>
      match loadGrowth (files_map entries) with
      | Except.error e => LoadResult.fatal e
      | Except.ok growth =>
        match dfs with
        | [] => LoadResult.fatal "환경 데이터 CSV 파일을 찾을 수 없습니다."
        | _ => LoadResult.ok dfs.flatten growth

/-- The environment file located for one school, when it exists and is a CSV. -/
def envFound (fm : List (String × FileContent)) (school : String) : Option CsvFile :=
  match findFirstFile (envRule school) fm with
  | some (_, FileContent.csv c) => some c
  | _ => none

/-- Sum of data rows over the per-school located CSV files. -/
def envRowSum (fm : List (String × FileContent)) : Nat :=
  (school_config.map (fun sc =>
    match envFound fm sc.1 with
    | some c => c.rows.length
    | none => 0)).sum

/-- Sum of rows over the sheets whose normalized name contains a configured
school name. -/
def growthRowSum (sheets : List Sheet) : Nat :=
  ((sheets.filter (fun sh =>
    school_config.any (fun sc => containsStr (nfc sh.name) sc.1))).map
      (fun sh => sh.rows.length)).sum

/-- Column names of a record. -/
def rowKeys (r : Row) : List String := r.map Prod.fst

/-- Sheets of the growth workbook used for the C1 witness directory: one
matched sheet and one summary sheet matching no school. -/
def c1sheets : List Sheet :=
  [⟨"송도고", ["생중량(g)"], [[Cell.num 12], [Cell.num 13]]⟩,
   ⟨"요약", [], [[]]⟩]

/-- C1 witness directory: one environment CSV per school plus the workbook. -/
def c1entries : List DirEntry :=
  [⟨"송도고환경.csv", FileContent.csv ⟨["temperature"], [["21"], ["22"]]⟩⟩,
   ⟨"하늘고환경.csv", FileContent.csv ⟨["temperature"], [["23"]]⟩⟩,
   ⟨"아라고환경.csv", FileContent.csv ⟨["humidity"], [["60"]]⟩⟩,
   ⟨"동산고환경.csv", FileContent.csv ⟨["ec"], [["8"]]⟩⟩,
   ⟨"생육결과.xlsx", FileContent.xlsx c1sheets⟩]

/-- C2 failing input: the 송도고 environment CSV is absent while the other
three schools and the growth workbook are present. -/
def c2entries : List DirEntry :=
  [⟨"하늘고환경.csv", FileContent.csv ⟨["temperature"], [["23"]]⟩⟩,
   ⟨"아라고환경.csv", FileContent.csv ⟨["ph"], [["6"]]⟩⟩,
   ⟨"동산고환경.csv", FileContent.csv ⟨["ec"], [["8"]]⟩⟩,
   ⟨"생육결과.xlsx", FileContent.xlsx [⟨"하늘고", ["생중량(g)"], [[Cell.num 10]]⟩]⟩]

/-- A CSV content for the C4 witness. -/
def c4content : FileContent := FileContent.csv ⟨["temperature"], [["21"]]⟩

/-- The NFD (decomposed jamo) spelling of the filename 송도고환경.csv, built
from explicit code points so the normalization form is unambiguous. -/
def c4nfdName : String :=
  String.mk [Char.ofNat 0x1109, Char.ofNat 0x1169, Char.ofNat 0x11BC,
    Char.ofNat 0x1103, Char.ofNat 0x1169, Char.ofNat 0x1100, Char.ofNat 0x1169,
    Char.ofNat 0x1112, Char.ofNat 0x116A, Char.ofNat 0x11AB,
    Char.ofNat 0x1100, Char.ofNat 0x1167, Char.ofNat 0x11BC,
    '.', 'c', 's', 'v']

/-- C5 witness directory. -/
def c5entries : List DirEntry :=
  [⟨"송도고환경.csv", FileContent.csv ⟨["temperature"], [["21"]]⟩⟩,
   ⟨"생육결과.xlsx", FileContent.xlsx [⟨"송도고", ["생중량(g)"], [[Cell.num 9]]⟩]⟩]

/-- Environment table load_data produces on the C5 witness directory. -/
def c5env : List Row :=
  [[("temperature", Cell.num 21), ("school", Cell.str "송도고"), ("target_ec", Cell.num 1)]]

/-- Growth table load_data produces on the C5 witness directory. -/
def c5growth : List Row :=
  [[("생중량(g)", Cell.num 9), ("school", Cell.str "송도고"), ("target_ec", Cell.num 1)]]

/-- The growth sheet matched by 하늘고 in the C6 directories. -/
def c6matchedSheet : Sheet := ⟨"하늘고", ["생중량(g)"], [[Cell.num 7]]⟩

/-- An extra summary sheet whose name matches no configured school. -/
def c6extraSheet : Sheet := ⟨"총정리", ["비고"], [[Cell.str "메모"]]⟩

/-- C6 directory A: workbook has the matched sheet plus the unmatched one. -/
def c6entriesA : List DirEntry :=
  [⟨"하늘고환경.csv", FileContent.csv ⟨["ec"], [["2"]]⟩⟩,
   ⟨"생육결과.xlsx", FileContent.xlsx [c6matchedSheet, c6extraSheet]⟩]

/-- C6 directory B: identical except the unmatched sheet is absent. -/
def c6entriesB : List DirEntry :=
  [⟨"하늘고환경.csv", FileContent.csv ⟨["ec"], [["2"]]⟩⟩,
   ⟨"생육결과.xlsx", FileContent.xlsx [c6matchedSheet]⟩]

/-- C7 failing input: the temperature column holds the non-numeric text abc
in its second row. -/
def c7entries : List DirEntry :=
  [⟨"송도고환경.csv", FileContent.csv
     ⟨["time", "temperature"], [["2024-01-01", "23"], ["2024-01-02", "abc"]]⟩⟩,
   ⟨"생육결과.xlsx", FileContent.xlsx [⟨"송도고", ["생중량(g)"], [[Cell.num 5]]⟩]⟩]

/-- The record load_data produces for the malformed C7 row. -/
def c7row2 : Row :=
  [("time", Cell.timestamp 20240102), ("temperature", Cell.str "abc"),
   ("school", Cell.str "송도고"), ("target_ec", Cell.num 1)]

/-- The record load_data produces for the well-formed C7 row. -/
def c7row1 : Row :=
  [("time", Cell.timestamp 20240101), ("temperature", Cell.str "23"),
   ("school", Cell.str "송도고"), ("target_ec", Cell.num 1)]

/-- CSV used by the C7 witness. -/
def c7amCsv : CsvFile := ⟨["time", "temperature"], [["2024-01-02", "abc"]]⟩

/-- CSV with header variants for the C8 witness. -/
def c8csv : CsvFile :=
  ⟨[" Time", "Temperature ", "HUMIDITY", "pH", "EC"],
   [["2024-01-01", "21", "60", "6", "2"]]⟩

/-- Growth sheet with unit-labelled headers for the C8 witness. -/
def c8sheet : Sheet := ⟨"송도고", ["생중량(g)", "잎 수(장)"], [[Cell.num 12, Cell.num 5]]⟩

/-- The environment record produced from the C8 CSV. -/
def c8row1 : Row :=
  [("time", Cell.timestamp 20240101), ("temperature", Cell.num 21),
   ("humidity", Cell.num 60), ("ph", Cell.num 6), ("ec", Cell.num 2),
   ("school", Cell.str "송도고"), ("target_ec", Cell.num 1)]

/-- The growth record produced from the C8 sheet. -/
def c8row2 : Row :=
  [("생중량(g)", Cell.num 12), ("잎 수(장)", Cell.num 5),
   ("school", Cell.str "송도고"), ("target_ec", Cell.num 1)]

/-- The single unmatched sheet of the C9 witness workbook. -/
def c9sheets : List Sheet := [⟨"요약통계", ["비고"], [[Cell.str "x"]]⟩]

/-- C9 witness directory: growth workbook present but no sheet matches. -/
def c9entries : List DirEntry :=
  [⟨"송도고환경.csv", FileContent.csv ⟨["temperature"], [["21"]]⟩⟩,
   ⟨"생육결과.xlsx", FileContent.xlsx c9sheets⟩]

/-- The per-school environment tables of the C9 witness directory. -/
def c9dfs : List (List Row) :=
  [[[("temperature", Cell.num 21), ("school", Cell.str "송도고"), ("target_ec", Cell.num 1)]]]

/-- CSV whose single file serves two schools in the C10 witness. -/
def c10csv : CsvFile := ⟨["ec"], [["3"]]⟩

/-- The C10 witness growth sheets. -/
def c10sheets : List Sheet := [⟨"송도고", ["생중량(g)"], [[Cell.num 4]]⟩]

/-- C10 witness directory: one CSV whose name contains both 송도고 and
하늘고 together with the environment keyword. -/
def c10entries : List DirEntry :=
  [⟨"송도고하늘고환경.csv", FileContent.csv c10csv⟩,
   ⟨"생육결과.xlsx", FileContent.xlsx c10sheets⟩]

/-- The school-name literals of this file are in NFC form, matching the
source: their code points are pinned here. -/
example : "송도고".toList.map Char.toNat = [0xC1A1, 0xB3C4, 0xACE0] := by decide

example : "하늘고".toList.map Char.toNat = [0xD558, 0xB298, 0xACE0] := by decide

example : "아라고".toList.map Char.toNat = [0xC544, 0xB77C, 0xACE0] := by decide

example : "동산고".toList.map Char.toNat = [0xB3D9, 0xC0B0, 0xACE0] := by decide

example : "환경".toList.map Char.toNat = [0xD658, 0xACBD] := by decide

example : "생육결과".toList.map Char.toNat = [0xC0DD, 0xC721, 0xACB0, 0xACFC] := by decide

/-- A found first match as CSV makes the per-school loader succeed with the
processed table. -/
theorem loadEnvFor_found (fm : List (String × FileContent)) (s : String) (ec : Int)
    (fn : String) (c : CsvFile)
    (h : findFirstFile (envRule s) fm = some (fn, FileContent.csv c)) :
    loadEnvFor fm s ec = Except.ok (some (processCsv c s ec)) := by
  unfold loadEnvFor
  rw [h]

/-- No matching file makes the per-school loader skip the school. -/
theorem loadEnvFor_none (fm : List (String × FileContent)) (s : String) (ec : Int)
    (h : findFirstFile (envRule s) fm = none) :
    loadEnvFor fm s ec = Except.ok none := by
  unfold loadEnvFor
  rw [h]

/-- A located CSV unpacks to a first match of the environment rule. -/
theorem envFound_spec {fm : List (String × FileContent)} {s : String} {c : CsvFile}
    (h : envFound fm s = some c) :
    ∃ fn, findFirstFile (envRule s) fm = some (fn, FileContent.csv c) := by
  unfold envFound at h
  split at h
  · rename_i fn c0 heq
    exact ⟨fn, by rw [heq]; cases h; rfl⟩
  · exact absurd h (by simp)

/-- Processing a CSV never drops or adds rows. -/
theorem processCsv_length (c : CsvFile) (s : String) (ec : Int) :
    (processCsv c s ec).length = c.rows.length := by
  simp [processCsv]

/-- Tagging a sheet never drops or adds rows. -/
theorem tagRows_length (sh : Sheet) (s : String) (ec : Int) :
    (tagRows sh s ec).length = sh.rows.length := by
  simp [tagRows]

/-- Presence of a first satisfying element coincides with existence of a
satisfying element. -/
theorem find?_isSome_eq_any (l : List (String × Int)) (p : (String × Int) → Bool) :
    (l.find? p).isSome = l.any p := by
  induction l with
  | nil => rfl
  | cons a t ih => cases hp : p a <;> simp [List.find?, hp, ih]

/-- A sheet whose normalized name contains no configured school contributes
no rows. -/
theorem contribSheet_nil (sh : Sheet)
    (h : ∀ sc ∈ school_config, containsStr (nfc sh.name) sc.1 = false) :
    contribSheet sh = [] := by
  unfold contribSheet firstMatchedSchool
  rw [List.find?_eq_none.mpr]
  · intro x hx
    simp [h x hx]

/-- The growth table over a cons of sheets. -/
theorem processSheets_cons (sh : Sheet) (t : List Sheet) :
    processSheets (sh :: t) = contribSheet sh ++ processSheets t := by
  simp [processSheets]

/-- A workbook none of whose sheets matches yields an empty growth table. -/
theorem processSheets_all_unmatched (sheets : List Sheet)
    (h : ∀ sh ∈ sheets, ∀ sc ∈ school_config, containsStr (nfc sh.name) sc.1 = false) :
    processSheets sheets = [] := by
  induction sheets with
  | nil => rfl
  | cons sh t ih =>
    rw [processSheets_cons, contribSheet_nil sh (h sh (by simp)),
      ih (fun s hs sc hsc => h s (List.mem_cons_of_mem _ hs) sc hsc)]
    rfl

/-- A found workbook makes the growth loader succeed with all processed
sheets. -/
theorem loadGrowth_found (fm : List (String × FileContent)) (fn : String)
    (sheets : List Sheet)
    (h : findFirstFile growthRule fm = some (fn, FileContent.xlsx sheets)) :
    loadGrowth fm = Except.ok (processSheets sheets) := by
  unfold loadGrowth
  rw [h]

/-- When no school has a matching environment file, the environment loop
collects nothing (and raises no error). -/
theorem loadEnvList_all_none (l : List (String × Int)) (fm : List (String × FileContent))
    (h : ∀ sc ∈ l, findFirstFile (envRule sc.1) fm = none) :
    loadEnvList l fm = Except.ok [] := by
  induction l with
  | nil => rfl
  | cons a t ih =>
    obtain ⟨s, ec⟩ := a
    rw [loadEnvList, loadEnvFor_none fm s ec (h (s, ec) (by simp))]
    exact ih (fun sc hsc => h sc (List.mem_cons_of_mem _ hsc))

/-- The length of the growth table is the sum of row counts over the
matched sheets. -/
theorem processSheets_length (sheets : List Sheet) :
    (processSheets sheets).length = growthRowSum sheets := by
  induction sheets with
  | nil => rfl
  | cons sh t ih =>
    rw [processSheets_cons, List.length_append, ih]
    unfold growthRowSum contribSheet firstMatchedSchool
    cases hf : school_config.find? (fun sc => containsStr (nfc sh.name) sc.1) with
    | none =>
      have hany : school_config.any (fun sc => containsStr (nfc sh.name) sc.1) = false := by
        rw [← find?_isSome_eq_any, hf]
        rfl
      simp [List.filter, hany]
    | some p =>
      have hany : school_config.any (fun sc => containsStr (nfc sh.name) sc.1) = true := by
        rw [← find?_isSome_eq_any, hf]
        rfl
      obtain ⟨s, ec⟩ := p
      simp [List.filter, hany, tagRows_length]

/-- C2: on a directory where only the 송도고 environment CSV is absent, the
load succeeds, 송도고 contributes zero environment records and the other
schools are unaffected; but the result is a plain success value — the
LoadResult type, which models the full return value of load_data, has no
warning component, and the missing-file branch of the source is a bare
pass, so no warning naming the school is produced anywhere. -/
theorem c2_missing_condition_proceeds :
    load_data (some c2entries) = LoadResult.ok
      [[("temperature", Cell.num 23), ("school", Cell.str "하늘고"), ("target_ec", Cell.num 2)],
       [("ph", Cell.num 6), ("school", Cell.str "아라고"), ("target_ec", Cell.num 4)],
       [("ec", Cell.num 8), ("school", Cell.str "동산고"), ("target_ec", Cell.num 8)]]
      [[("생중량(g)", Cell.num 10), ("school", Cell.str "하늘고"), ("target_ec", Cell.num 2)]]
    ∧ envFound (files_map c2entries) "송도고" = none := by
  constructor
  · decide
  · decide

/-- C3: when the data directory does not exist, or no environment CSV
matches any configured school, or no growth spreadsheet matches, load_data
returns a structured fatal value and yields neither table. -/
theorem c3_fatal_no_dataset (d : Option (List DirEntry))
    (h : d = none ∨ ∃ entries, d = some entries ∧
      ((∀ sc ∈ school_config, findFirstFile (envRule sc.1) (files_map entries) = none) ∨
        findFirstFile growthRule (files_map entries) = none)) :
    ∃ msg, load_data d = LoadResult.fatal msg
      ∧ ∀ env growth, load_data d ≠ LoadResult.ok env growth := by
  have key : ∃ msg, load_data d = LoadResult.fatal msg := by
    rcases h with rfl | ⟨entries, rfl, henv | hgrow⟩
    · exact ⟨_, rfl⟩
    · have hlist : loadEnvList school_config (files_map entries) = Except.ok [] :=
        loadEnvList_all_none _ _ henv
      cases hG : loadGrowth (files_map entries) with
      | error e => exact ⟨e, by simp [load_data, hlist, hG]⟩
      | ok g =>
        exact ⟨"환경 데이터 CSV 파일을 찾을 수 없습니다.", by simp [load_data, hlist, hG]⟩
    · cases hE : loadEnvList school_config (files_map entries) with
      | error e => exact ⟨e, by simp [load_data, hE]⟩
      | ok dfs =>
        have hG : loadGrowth (files_map entries) =
            Except.error "생육결과 엑셀 파일(생육결과...xlsx)을 찾을 수 없습니다." := by
          unfold loadGrowth
          rw [hgrow]
        exact ⟨"생육결과 엑셀 파일(생육결과...xlsx)을 찾을 수 없습니다.",
          by simp [load_data, hE, hG]⟩
  obtain ⟨msg, hmsg⟩ := key
  refine ⟨msg, hmsg, ?_⟩
  intro env growth hcon
  rw [hmsg] at hcon
  exact LoadResult.noConfusion hcon

/-- Witness for C3 at the empty directory. -/
theorem c3_witness :
    ∃ msg, load_data (some ([] : List DirEntry)) = LoadResult.fatal msg
      ∧ ∀ env growth, load_data (some ([] : List DirEntry)) ≠ LoadResult.ok env growth :=
  c3_fatal_no_dataset (some []) (Or.inr ⟨[], rfl, Or.inl (by decide)⟩)

/-- C4: the file-matching step sees only the NFC normalization of each
entry name, so two directory entries whose names are NFC-equivalent —
in particular a composed and a decomposed spelling of the same logical
filename — are located identically by every matching rule. -/
theorem c4_nfc_insensitive_matching (n1 n2 : String) (c : FileContent)
    (rest : List DirEntry) (p : String → Bool) (h : nfc n1 = nfc n2) :
    findFirstFile p (files_map (⟨n1, c⟩ :: rest)) =
      findFirstFile p (files_map (⟨n2, c⟩ :: rest)) := by
  have hm : files_map (⟨n1, c⟩ :: rest) = files_map (⟨n2, c⟩ :: rest) := by
    simp [files_map, h]
  rw [hm]

/-- Witness for C4: the decomposed spelling of 송도고환경.csv normalizes to
the composed spelling, is matched exactly like it, and is located. -/
theorem c4_witness :
    nfc c4nfdName = nfc "송도고환경.csv"
    ∧ findFirstFile (envRule "송도고") (files_map [⟨c4nfdName, c4content⟩]) =
        findFirstFile (envRule "송도고") (files_map [⟨"송도고환경.csv", c4content⟩])
    ∧ (findFirstFile (envRule "송도고") (files_map [⟨c4nfdName, c4content⟩])).isSome = true :=
  ⟨by decide,
   c4_nfc_insensitive_matching c4nfdName "송도고환경.csv" c4content [] (envRule "송도고")
     (by decide),
   by decide⟩

/-- C5: loading is deterministic and idempotent — any two successful loads
of the same directory contents agree on both tables, hence on row counts,
per-row field values and row order. -/
theorem c5_idempotent_load (d : Option (List DirEntry)) (e1 g1 e2 g2 : List Row)
    (h1 : load_data d = LoadResult.ok e1 g1) (h2 : load_data d = LoadResult.ok e2 g2) :
    e1 = e2 ∧ g1 = g2 ∧ e1.length = e2.length := by
  rw [h1] at h2
  injection h2 with he hg
  exact ⟨he, hg, by rw [he]⟩

/-- Witness for C5 at a concrete directory loaded twice. -/
theorem c5_witness : c5env = c5env ∧ c5growth = c5growth ∧ c5env.length = c5env.length :=
  c5_idempotent_load (some c5entries) c5env c5growth c5env c5growth (by decide) (by decide)

/-- C6 counterexample: the claim that the loader reports the set of
unmatched sheet names as informational output is false — two directories
whose workbooks differ exactly by an unmatched sheet produce identical
load_data results, so the result carries no information about unmatched
sheet names. -/
theorem c6_counterexample_no_unmatched_report :
    load_data (some c6entriesA) = load_data (some c6entriesB)
    ∧ (∀ sc ∈ school_config, containsStr (nfc c6extraSheet.name) sc.1 = false)
    ∧ c6entriesA ≠ c6entriesB := by
  refine ⟨by decide, by decide, by decide⟩

/-- C6 amended: the growth table is the concatenation of the matched
sheets' tagged rows in workbook sheet order, and a sheet matching no
configured school is skipped silently — it contributes no rows and leaves
no trace in the output. -/
theorem c6_growth_concat_skips_unmatched (s1 s2 : List Sheet) (sh : Sheet)
    (h : ∀ sc ∈ school_config, containsStr (nfc sh.name) sc.1 = false) :
    processSheets (s1 ++ s2) = processSheets s1 ++ processSheets s2
    ∧ processSheets (s1 ++ sh :: s2) = processSheets s1 ++ processSheets s2 := by
  have hnil : contribSheet sh = [] := contribSheet_nil sh h
  constructor
  · simp [processSheets]
  · simp [processSheets, hnil]

/-- Witness for C6 at concrete sheet lists. -/
theorem c6_witness :
    processSheets ([c6matchedSheet] ++ []) = processSheets [c6matchedSheet] ++ processSheets []
    ∧ processSheets ([c6matchedSheet] ++ c6extraSheet :: []) =
        processSheets [c6matchedSheet] ++ processSheets [] :=
  c6_growth_concat_skips_unmatched [c6matchedSheet] [] c6extraSheet (by decide)

/-- C7 counterexample: a non-numeric value in a numeric column does not
become an invalid marker — the record produced for the malformed row keeps
the raw text abc in the temperature field (the row itself is retained and
the row count is unchanged). -/
theorem c7_counterexample_nonnumeric_kept :
    load_data (some c7entries) = LoadResult.ok [c7row1, c7row2]
      [[("생중량(g)", Cell.num 5), ("school", Cell.str "송도고"), ("target_ec", Cell.num 1)]]
    ∧ List.lookup "temperature" c7row2 = some (Cell.str "abc")
    ∧ Cell.str "abc" ≠ Cell.invalid
    ∧ [c7row1, c7row2].length = 2 := by
  refine ⟨by decide, by decide, by decide, by decide⟩

/-- C7 amended: a malformed cell never drops a row or aborts the load —
processing preserves the row count exactly; a timestamp cell that fails to
parse becomes the invalid marker; but a non-numeric value in a numeric
column is retained verbatim as text rather than marked invalid; and a
school whose first match is a well-formed CSV loads without any error. -/
theorem c7_malformed_cell_amended (c : CsvFile) (s : String) (ec : Int) (t : String)
    (fm : List (String × FileContent)) (fn : String)
    (h1 : parseDate t = none) (h2 : parseNum t = none) (h3 : t ≠ "")
    (h4 : findFirstFile (envRule s) fm = some (fn, FileContent.csv c)) :
    (processCsv c s ec).length = c.rows.length
    ∧ timeCoerce (Cell.str t) = Cell.invalid
    ∧ isNumericEntry t = false
    ∧ rawCell false t = Cell.str t
    ∧ loadEnvFor fm s ec = Except.ok (some (processCsv c s ec)) := by
  refine ⟨processCsv_length c s ec, ?_, ?_, ?_, loadEnvFor_found fm s ec fn c h4⟩
  · simp [timeCoerce, h1]
  · simp [isNumericEntry, h2, h3]
  · simp [rawCell, h3]

/-- Witness for C7 at the text abc and a concrete CSV. -/
theorem c7_witness :
    (processCsv c7amCsv "송도고" 1).length = c7amCsv.rows.length
    ∧ timeCoerce (Cell.str "abc") = Cell.invalid
    ∧ isNumericEntry "abc" = false
    ∧ rawCell false "abc" = Cell.str "abc"
    ∧ loadEnvFor [("송도고환경.csv", FileContent.csv c7amCsv)] "송도고" 1 =
        Except.ok (some (processCsv c7amCsv "송도고" 1)) :=
  c7_malformed_cell_amended c7amCsv "송도고" 1 "abc"
    [("송도고환경.csv", FileContent.csv c7amCsv)] "송도고환경.csv"
    (by decide) (by decide) (by decide) (by decide)

/-- C8: every environment record's column names are the whitespace-trimmed,
case-folded CSV headers followed by the school and target-EC tags, while
every growth record keeps its sheet's headers verbatim, followed by the
same two tags. -/
theorem c8_header_normalization (c : CsvFile) (sh : Sheet) (s1 s2 : String)
    (e1 e2 : Int) (r1 r2 : Row)
    (h1 : r1 ∈ processCsv c s1 e1)
    (hlen : ∀ row ∈ sh.rows, row.length = sh.header.length)
    (h2 : r2 ∈ tagRows sh s2 e2) :
    rowKeys r1 = c.header.map trimLower ++ ["school", "target_ec"]
    ∧ rowKeys r2 = sh.header ++ ["school", "target_ec"] := by
  constructor
  · simp only [processCsv, List.mem_map] at h1
    obtain ⟨row, hrow, hr⟩ := h1
    subst hr
    unfold rowKeys
    rw [List.map_append, List.map_fst_zip _ _ (by simp)]
    simp
  · simp only [tagRows, List.mem_map] at h2
    obtain ⟨row, hrow, hr⟩ := h2
    subst hr
    unfold rowKeys
    rw [List.map_append, List.map_fst_zip _ _ (le_of_eq (hlen row hrow).symm)]
    simp

/-- C9: when the growth workbook is located but none of its sheet names
contains any configured school name, and the environment loop succeeded
with at least one table, load_data succeeds with an empty growth table
alongside the environment table (and, its result being a plain ok value,
reports neither a fatal error nor any warning). -/
theorem c9_unmatched_growth_sheets_ok (entries : List DirEntry) (fn : String)
    (sheets : List Sheet) (dfs : List (List Row))
    (hg : findFirstFile growthRule (files_map entries) = some (fn, FileContent.xlsx sheets))
    (hno : ∀ sh ∈ sheets, ∀ sc ∈ school_config, containsStr (nfc sh.name) sc.1 = false)
    (henv : loadEnvList school_config (files_map entries) = Except.ok dfs)
    (hne : dfs ≠ []) :
    load_data (some entries) = LoadResult.ok dfs.flatten [] := by
  have hG : loadGrowth (files_map entries) = Except.ok [] := by
    have h0 := loadGrowth_found (files_map entries) fn sheets hg
    rw [processSheets_all_unmatched sheets hno] at h0
    exact h0
  cases dfs with
  | nil => exact absurd rfl hne
  | cons d t => simp [load_data, henv, hG]

/-- Witness for C9 at a workbook holding only a summary sheet. -/
theorem c9_witness : load_data (some c9entries) = LoadResult.ok c9dfs.flatten [] :=
  c9_unmatched_growth_sheets_ok c9entries "생육결과.xlsx" c9sheets c9dfs
    (by decide) (by decide) (by rfl) (by decide)

/-- C10: environment matching runs once per school with no de-duplication:
when one file is the first match for both 송도고 and 하늘고 and the other
two schools have no match, the file's rows enter the environment table
twice, tagged with the two different school names and target-EC values; and
within one school's search the first entry of the files map satisfying the
rule is the one located. -/
theorem c10_multi_condition_duplicate (entries : List DirEntry) (fn gn : String)
    (c : CsvFile) (sheets : List Sheet) (k : String) (v : FileContent)
    (l : List (String × FileContent)) (p : String → Bool)
    (h1 : findFirstFile (envRule "송도고") (files_map entries) = some (fn, FileContent.csv c))
    (h2 : findFirstFile (envRule "하늘고") (files_map entries) = some (fn, FileContent.csv c))
    (h3 : findFirstFile (envRule "아라고") (files_map entries) = none)
    (h4 : findFirstFile (envRule "동산고") (files_map entries) = none)
    (hg : findFirstFile growthRule (files_map entries) = some (gn, FileContent.xlsx sheets))
    (hp : p k = true) :
    load_data (some entries) = LoadResult.ok
      (processCsv c "송도고" 1 ++ processCsv c "하늘고" 2) (processSheets sheets)
    ∧ findFirstFile p ((k, v) :: l) = some (k, v) := by
  constructor
  · have e1 := loadEnvFor_found (files_map entries) "송도고" 1 fn c h1
    have e2 := loadEnvFor_found (files_map entries) "하늘고" 2 fn c h2
    have e3 := loadEnvFor_none (files_map entries) "아라고" 4 h3
    have e4 := loadEnvFor_none (files_map entries) "동산고" 8 h4
    have hG := loadGrowth_found (files_map entries) gn sheets hg
    simp [load_data, school_config, loadEnvList, e1, e2, e3, e4, hG]
  · simp [findFirstFile, hp]

/-- Witness for C10: the single CSV named 송도고하늘고환경.csv is loaded for
both schools. -/
theorem c10_witness :
    load_data (some c10entries) = LoadResult.ok
      (processCsv c10csv "송도고" 1 ++ processCsv c10csv "하늘고" 2) (processSheets c10sheets)
    ∧ findFirstFile (envRule "송도고")
        [("송도고하늘고환경.csv", FileContent.csv c10csv)] =
        some ("송도고하늘고환경.csv", FileContent.csv c10csv) :=
  c10_multi_condition_duplicate c10entries "송도고하늘고환경.csv" "생육결과.xlsx"
    c10csv c10sheets "송도고하늘고환경.csv" (FileContent.csv c10csv) [] (envRule "송도고")
    (by decide) (by decide) (by decide) (by decide) (by decide) (by decide)

/-- A successful environment loop with at least one table and a successful
growth load make load_data succeed with the concatenated tables. -/
theorem load_data_ok (entries : List DirEntry) (d0 : List Row) (dfs : List (List Row))
    (g : List Row)
    (hE : loadEnvList school_config (files_map entries) = Except.ok (d0 :: dfs))
    (hG : loadGrowth (files_map entries) = Except.ok g) :
    load_data (some entries) = LoadResult.ok (d0 :: dfs).flatten g := by
  simp [load_data, hE, hG]

/-- C1: on a directory holding a matching environment CSV for every
configured school and the growth workbook, load_data returns no fatal
error, the environment table has as many rows as the located per-school
CSV files together, and the growth table has as many rows as the sheets
whose normalized name contains a configured school name together. -/
theorem c1_valid_load_counts (entries : List DirEntry) (fn : String) (sheets : List Sheet)
    (henv : ∀ sc ∈ school_config, (envFound (files_map entries) sc.1).isSome)
    (hg : findFirstFile growthRule (files_map entries) = some (fn, FileContent.xlsx sheets)) :
    ∃ env growth, load_data (some entries) = LoadResult.ok env growth
      ∧ env.length = envRowSum (files_map entries)
      ∧ growth.length = growthRowSum sheets := by
  obtain ⟨c1, hc1⟩ := Option.isSome_iff_exists.mp (henv ("송도고", 1) (by decide))
  obtain ⟨c2, hc2⟩ := Option.isSome_iff_exists.mp (henv ("하늘고", 2) (by decide))
  obtain ⟨c3, hc3⟩ := Option.isSome_iff_exists.mp (henv ("아라고", 4) (by decide))
  obtain ⟨c4, hc4⟩ := Option.isSome_iff_exists.mp (henv ("동산고", 8) (by decide))
  obtain ⟨f1, hf1⟩ := envFound_spec hc1
  obtain ⟨f2, hf2⟩ := envFound_spec hc2
  obtain ⟨f3, hf3⟩ := envFound_spec hc3
  obtain ⟨f4, hf4⟩ := envFound_spec hc4
  have e1 := loadEnvFor_found (files_map entries) "송도고" 1 f1 c1 hf1
  have e2 := loadEnvFor_found (files_map entries) "하늘고" 2 f2 c2 hf2
  have e3 := loadEnvFor_found (files_map entries) "아라고" 4 f3 c3 hf3
  have e4 := loadEnvFor_found (files_map entries) "동산고" 8 f4 c4 hf4
  have hG := loadGrowth_found (files_map entries) fn sheets hg
  have hlist : loadEnvList school_config (files_map entries) =
      Except.ok [processCsv c1 "송도고" 1, processCsv c2 "하늘고" 2,
        processCsv c3 "아라고" 4, processCsv c4 "동산고" 8] := by
    simp [school_config, loadEnvList, e1, e2, e3, e4]
  refine ⟨_, _, load_data_ok entries _ _ _ hlist hG, ?_, processSheets_length sheets⟩
  simp [envRowSum, school_config, hc1, hc2, hc3, hc4, processCsv_length]

/-- Witness for C1 at a fully populated directory: 2+1+1+1 environment rows
and a workbook with one matched sheet of 2 rows plus an unmatched sheet. -/
theorem c1_witness :
    ∃ env growth, load_data (some c1entries) = LoadResult.ok env growth
      ∧ env.length = envRowSum (files_map c1entries)
      ∧ growth.length = growthRowSum c1sheets :=
  c1_valid_load_counts c1entries "생육결과.xlsx" c1sheets (by decide) (by decide)

/-- Witness for C8: variant CSV headers map to the canonical column names
while the sheet's unit-labelled headers survive verbatim. -/
theorem c8_witness :
    rowKeys c8row1 = c8csv.header.map trimLower ++ ["school", "target_ec"]
    ∧ rowKeys c8row2 = c8sheet.header ++ ["school", "target_ec"] :=
  c8_header_normalization c8csv c8sheet "송도고" "송도고" 1 1 c8row1 c8row2
    (by decide) (by decide) (by decide)
